import Mathlib

/-!
# CampoTech — verification of the extraction, matching, routing and phone
# normalization subsystems

Shallow embedding of the Python sources:

* `src/services/ai/app/services/invoice_extraction.py`
  (`calculate_match_score`, `match_to_pricebook`, `extract_invoice_data`)
* `src/services/ai/app/workflows/voice_processing.py`
  (`check_permission`, `translate_node`, `route_by_confidence`,
  `send_confirmation_node`, `auto_create_job_node`, `build_voice_workflow`)
* `src/services/ai/app/workflows/support_bot.py`
  (`classify_issue`, `provide_answer`, `process_support_message`)
* `src/apps/web/scripts/parse-gas-pdf.py` (`format_phone_for_whatsapp`)

Modelling conventions:

* Python `Decimal` and `float` arithmetic is embedded as `ℚ`.  Every money
  computation in the source is `Decimal` arithmetic on values with few
  digits, where Python's default 28-significant-digit context is exact, so
  the `ℚ` embedding computes the same values.
* Text processing (`str.lower`, `\w`, `str.strip`) is embedded over the
  ASCII fragment of Unicode; inputs used in witnesses and counterexamples
  are ASCII.
* LLM / HTTP collaborators are parameters: their responses (or the
  exception they raise) are explicit inputs of the embedded functions.
-/

namespace CampoTech

/-! ## Tokenization and scoring
    Source: `invoice_extraction.py`, `calculate_match_score` (lines 138-162). -/

/-- Python `str.lower()` over the ASCII fragment, as a character-list map
    (equivalent to `String.toLower` but transparent to kernel reduction). -/
def pyLower (s : String) : String :=
  ⟨s.data.map Char.toLower⟩

/-- Python `\w` over the ASCII fragment: letters, digits and underscore. -/
def isWordChar (c : Char) : Bool :=
  c.isAlphanum || c = '_'

/-- Python `re.sub(r'[^\w\s]', '', s)`: keep word characters and whitespace. -/
def stripNonWord (s : String) : String :=
  ⟨s.data.filter (fun c => isWordChar c || c.isWhitespace)⟩

/-- The fixed stopword set of `calculate_match_score`. -/
def stopwords : List String :=
  ["de", "la", "el", "un", "una", "para", "con", "por", "y", "en"]

/-- Python `str.split()` with no separator: split on whitespace runs,
    dropping empty pieces.  `cur` accumulates the current word reversed. -/
def pySplitWsAux (cur : List Char) : List Char → List (List Char)
  | [] => if cur = [] then [] else [cur.reverse]
  | c :: cs =>
    if c.isWhitespace then
      (if cur = [] then pySplitWsAux [] cs else cur.reverse :: pySplitWsAux [] cs)
    else pySplitWsAux (c :: cur) cs

def pySplitWs (s : String) : List String :=
  (pySplitWsAux [] s.data).map String.mk

/-- The token set built by the inner `normalize` of `calculate_match_score`:
    lowercase, strip non-word characters, split on whitespace, drop
    stopwords and tokens of length ≤ 2.  Python builds a `set`; we build a
    `Finset String`. -/
def normalizeTokens (s : String) : Finset String :=
  ((pySplitWs (stripNonWord (pyLower s))).filter
    (fun t => t ∉ stopwords ∧ t.length > 2)).toFinset

/-- Source `calculate_match_score`: Jaccard similarity of the two token sets,
    `0` when either set is empty. -/
def calculate_match_score (extracted_name catalog_name : String) : ℚ :=
  let extracted_tokens := normalizeTokens extracted_name
  let catalog_tokens := normalizeTokens catalog_name
  if extracted_tokens = ∅ ∨ catalog_tokens = ∅ then 0
  else ((extracted_tokens ∩ catalog_tokens).card : ℚ) /
       ((extracted_tokens ∪ catalog_tokens).card : ℚ)

/-! ## Pricebook matching
    Source: `invoice_extraction.py`, `match_to_pricebook` (lines 165-225).
    A pricebook entry is a JSON dict with keys `id`, `name`, `description`,
    `price`, `unit`, `type`; we embed it as a record of those fields. -/

structure PriceItem where
  id : String
  name : String
  description : String
  price : ℚ
  unit : String
  itype : String
  deriving DecidableEq, Repr

/-- One entry of the `scored` list (a dict in the source). -/
structure ScoredItem where
  id : String
  name : String
  price : ℚ
  unit : String
  itype : String
  score : ℚ
  deriving DecidableEq, Repr

/-- The score assigned to one candidate inside the scoring loop of
    `match_to_pricebook`: `min(1.0, max(name_score, desc_score) + unit_bonus)`
    with `desc_score = calculate_match_score(name, description) * 0.7` and a
    `0.1` bonus for a case-insensitive unit match. -/
def candidateScore (extracted_name extracted_unit : String) (item : PriceItem) : ℚ :=
  let name_score := calculate_match_score extracted_name item.name
  let desc_score := calculate_match_score extracted_name item.description * (7/10)
  let unit_bonus : ℚ := if pyLower item.unit = pyLower extracted_unit then 1/10 else 0
  min 1 (max name_score desc_score + unit_bonus)

def toScored (extracted_name extracted_unit : String) (item : PriceItem) : ScoredItem :=
  { id := item.id, name := item.name, price := item.price, unit := item.unit,
    itype := item.itype, score := candidateScore extracted_name extracted_unit item }

/-- The type filter of `match_to_pricebook` with its fall-back to the whole
    pricebook when the filter leaves no candidate. -/
def candidatesOf (pricebook : List PriceItem) (item_type : String) : List PriceItem :=
  let candidates :=
    if item_type = "part" then pricebook.filter (fun p => p.itype = "PRODUCT")
    else if item_type = "service" then pricebook.filter (fun p => p.itype = "SERVICE")
    else pricebook
  if candidates = [] then pricebook else candidates

/-- The `scored` list right before sorting: every candidate whose score
    exceeds `0.2`, in pricebook iteration order. -/
def scoredList (extracted_name extracted_unit : String)
    (pricebook : List PriceItem) (item_type : String) : List ScoredItem :=
  ((candidatesOf pricebook item_type).map (toScored extracted_name extracted_unit)).filter
    (fun s => s.score > 1/5)

/-- Comparison implementing Python's `scored.sort(key=lambda x: x["score"],
    reverse=True)`: Python's sort is stable, so the sorted list is ordered by
    score descending with ties kept in original position order.  We realize
    that as a merge sort of the index-tagged list under the total order
    "score descending, then index ascending". -/
def scoreDescIdxAsc (a b : Nat × ScoredItem) : Bool :=
  decide (b.2.score < a.2.score ∨ (b.2.score = a.2.score ∧ a.1 ≤ b.1))

/-- The propositional counterpart of `scoreDescIdxAsc`: the order "score
    strictly descending, ties broken by ascending original position". -/
def scoreDescIdxOrder (a b : Nat × ScoredItem) : Prop :=
  b.2.score < a.2.score ∨ (b.2.score = a.2.score ∧ a.1 ≤ b.1)

/-- The sorted `scored` list of `match_to_pricebook`. -/
def sortedScored (extracted_name extracted_unit : String)
    (pricebook : List PriceItem) (item_type : String) : List ScoredItem :=
  ((scoredList extracted_name extracted_unit pricebook item_type).enum.mergeSort
    scoreDescIdxAsc).map (·.2)

/-- Source `match_to_pricebook`: best match (or `none`), its score as the
    confidence, and the alternatives `scored[1:4]`. -/
def match_to_pricebook (extracted_name extracted_unit : String)
    (pricebook : List PriceItem) (item_type : String) :
    Option ScoredItem × ℚ × List ScoredItem :=
  if pricebook = [] then (none, 0, [])
  else
    let sorted := sortedScored extracted_name extracted_unit pricebook item_type
    let best_match := sorted.head?
    let best_confidence := (best_match.map (·.score)).getD 0
    let alternatives := (sorted.drop 1).take 3
    (best_match, best_confidence, alternatives)

/-! ## Invoice draft generation
    Source: `invoice_extraction.py`, `extract_invoice_data` (lines 232-496).
    The GPT extraction call is a collaborator; the deterministic core below
    takes the parsed `parts` / `services` lists and the fetched pricebook as
    inputs and mirrors lines 349-496. -/

/-- Confidence thresholds of `invoice_extraction.py` (lines 43-45). -/
def HIGH_CONFIDENCE_THRESHOLD : ℚ := 85/100
def MEDIUM_CONFIDENCE_THRESHOLD : ℚ := 70/100

/-- Model `ExtractedPart` (models/invoice_extraction.py); the fields consumed by
    `extract_invoice_data`. -/
structure ExtractedPart where
  name : String
  quantity : ℚ
  unit : String
  source_text : String
  deriving DecidableEq, Repr

/-- Model `ExtractedService`; the fields consumed by `extract_invoice_data`.
    `duration_minutes` is `Optional[int]` in the source. -/
structure ExtractedService where
  description : String
  duration_minutes : Option ℤ
  source_text : String
  deriving DecidableEq, Repr

/-- Model `MatchedLineItem` (models/invoice_extraction.py); the fields written by
    `extract_invoice_data`. -/
structure MatchedLineItem where
  description : String
  quantity : ℚ
  unit : String
  unit_price : Option ℚ
  total : Option ℚ
  source_type : String
  source_text : String
  matched_price_item_id : Option String
  matched_price_item_name : Option String
  match_confidence : ℚ
  alternative_matches : List ScoredItem
  needs_review : Bool
  review_reason : Option String
  deriving DecidableEq, Repr

/-- The part loop body of `extract_invoice_data` (lines 352-415), producing
    the line item appended for one `ExtractedPart`. -/
def processPart (pricebook : List PriceItem) (part : ExtractedPart) : MatchedLineItem :=
  let r := match_to_pricebook part.name part.unit pricebook "part"
  let confidence := r.2.1
  let alternatives := r.2.2
  match r.1 with
  | some m =>
    if confidence ≥ HIGH_CONFIDENCE_THRESHOLD then
      let unit_price := m.price
      { description := m.name, quantity := part.quantity, unit := m.unit,
        unit_price := some unit_price, total := some (unit_price * part.quantity),
        source_type := "part", source_text := part.source_text,
        matched_price_item_id := some m.id, matched_price_item_name := some m.name,
        match_confidence := confidence, alternative_matches := alternatives,
        needs_review := false, review_reason := none }
    else if confidence ≥ MEDIUM_CONFIDENCE_THRESHOLD then
      let unit_price := m.price
      { description := m.name, quantity := part.quantity, unit := m.unit,
        unit_price := some unit_price, total := some (unit_price * part.quantity),
        source_type := "part", source_text := part.source_text,
        matched_price_item_id := some m.id, matched_price_item_name := some m.name,
        match_confidence := confidence, alternative_matches := alternatives,
        needs_review := true,
        review_reason := some ("Coincidencia media: '" ++ part.name ++ "' -> '" ++ m.name ++ "'") }
    else
      { description := part.name, quantity := part.quantity, unit := part.unit,
        unit_price := none, total := none,
        source_type := "part", source_text := part.source_text,
        matched_price_item_id := none, matched_price_item_name := none,
        match_confidence := confidence, alternative_matches := alternatives,
        needs_review := true,
        review_reason := some ("Parte no encontrada en catalogo: '" ++ part.name ++ "'") }
  | none =>
      { description := part.name, quantity := part.quantity, unit := part.unit,
        unit_price := none, total := none,
        source_type := "part", source_text := part.source_text,
        matched_price_item_id := none, matched_price_item_name := none,
        match_confidence := 0, alternative_matches := alternatives,
        needs_review := true,
        review_reason := some ("Parte no encontrada en catalogo: '" ++ part.name ++ "'") }

/-- The service loop body of `extract_invoice_data` (lines 418-462).
    `hours = duration_minutes / 60 if duration_minutes else 1.0`: a `None`
    or zero duration yields `1.0` (Python truthiness). -/
def processService (pricebook : List PriceItem) (service : ExtractedService) : MatchedLineItem :=
  let r := match_to_pricebook service.description "hora" pricebook "service"
  let confidence := r.2.1
  let alternatives := r.2.2
  let hours : ℚ := match service.duration_minutes with
    | some d => if d ≠ 0 then (d : ℚ) / 60 else 1
    | none => 1
  match r.1 with
  | some m =>
    if confidence ≥ MEDIUM_CONFIDENCE_THRESHOLD then
      let unit_price := m.price
      { description := m.name, quantity := hours, unit := m.unit,
        unit_price := some unit_price, total := some (unit_price * hours),
        source_type := "service", source_text := service.source_text,
        matched_price_item_id := some m.id, matched_price_item_name := some m.name,
        match_confidence := confidence, alternative_matches := alternatives,
        needs_review := confidence < HIGH_CONFIDENCE_THRESHOLD,
        review_reason := if confidence < HIGH_CONFIDENCE_THRESHOLD then
          some ("Servicio: '" ++ service.description ++ "'") else none }
    else
      { description := service.description, quantity := hours, unit := "hora",
        unit_price := none, total := none,
        source_type := "service", source_text := service.source_text,
        matched_price_item_id := none, matched_price_item_name := none,
        match_confidence := 0, alternative_matches := alternatives,
        needs_review := true,
        review_reason := some ("Servicio no encontrado: '" ++ service.description ++ "'") }
  | none =>
      { description := service.description, quantity := hours, unit := "hora",
        unit_price := none, total := none,
        source_type := "service", source_text := service.source_text,
        matched_price_item_id := none, matched_price_item_name := none,
        match_confidence := 0, alternative_matches := alternatives,
        needs_review := true,
        review_reason := some ("Servicio no encontrado: '" ++ service.description ++ "'") }

/-- The `line_items` list assembled by `extract_invoice_data`: all parts in
    order, then all services in order. -/
def lineItemsOf (pricebook : List PriceItem)
    (parts : List ExtractedPart) (services : List ExtractedService) :
    List MatchedLineItem :=
  parts.map (processPart pricebook) ++ services.map (processService pricebook)

/-- The deterministic tail of `InvoiceSuggestion`: the fields computed at
    lines 464-496 from the line items. -/
structure InvoiceTotals where
  line_items : List MatchedLineItem
  subtotal : ℚ
  tax_amount : ℚ
  total : ℚ
  overall_match_confidence : ℚ
  requires_review : Bool
  deriving Repr

/-- Lines 464-496 of `extract_invoice_data`: subtotal over priced items,
    `tax_amount = subtotal * (Decimal("21.0")/Decimal("100"))`,
    `total = subtotal + tax_amount` — no rounding is applied anywhere —
    plus the mean match confidence over priced items and the review flag. -/
def extract_invoice_totals (pricebook : List PriceItem)
    (parts : List ExtractedPart) (services : List ExtractedService) :
    InvoiceTotals :=
  let line_items := lineItemsOf pricebook parts services
  let subtotal := ((line_items.filterMap (·.total)).sum : ℚ)
  let tax_rate : ℚ := 21/100
  let tax_amount := subtotal * tax_rate
  let total := subtotal + tax_amount
  let priced_items := line_items.filter (fun i => i.unit_price ≠ none)
  let overall_confidence : ℚ :=
    if priced_items ≠ [] then (priced_items.map (·.match_confidence)).sum / priced_items.length
    else 0
  { line_items := line_items, subtotal := subtotal, tax_amount := tax_amount,
    total := total, overall_match_confidence := overall_confidence,
    requires_review := line_items.any (·.needs_review) }

/-! ## Phone normalization
    Source: `parse-gas-pdf.py`, `format_phone_for_whatsapp` (lines 25-81). -/

/-- Python `phone.strip()` over the ASCII fragment: drop leading and
    trailing whitespace characters. -/
def pyStrip (s : String) : String :=
  ⟨((s.data.dropWhile Char.isWhitespace).reverse.dropWhile Char.isWhitespace).reverse⟩

/-- Source step `cleaned = cleaned[1:] if cleaned.startswith('+')`. -/
def dropLeadingPlus (l : List Char) : List Char :=
  if l.head? = some '+' then l.tail else l

/-- Source step `cleaned = cleaned[2:] if cleaned.startswith('54')`. -/
def dropLeading54 (l : List Char) : List Char :=
  if l.take 2 = ['5', '4'] then l.drop 2 else l

/-- Source step `cleaned = cleaned[1:] if cleaned.startswith('9')`. -/
def dropLeading9 (l : List Char) : List Char :=
  if l.head? = some '9' then l.tail else l

/-- Source step `cleaned = cleaned[1:] if cleaned.startswith('0')`. -/
def dropLeading0 (l : List Char) : List Char :=
  if l.head? = some '0' then l.tail else l

/-- The `15` prefix handling: if `cleaned` begins with `15` and has at least
    9 characters, drop the `15` and, when at most 8 remain, prepend the
    default area code. -/
def handle15 (default_area_code : String) (l : List Char) : List Char :=
  if l.take 2 = ['1', '5'] ∧ l.length ≥ 9 then
    (if (l.drop 2).length ≤ 8 then default_area_code.data ++ l.drop 2 else l.drop 2)
  else l

/-- The local-number handling: a 6-8 character remainder gets the default
    area code prepended. -/
def padArea (default_area_code : String) (l : List Char) : List Char :=
  if l.length ≤ 8 ∧ l.length ≥ 6 then default_area_code.data ++ l else l

/-- Source `format_phone_for_whatsapp(phone, default_area_code)` over character
    lists.  Mirrors the source line by line: sentinel rejection, keep digits
    and `+`, drop a single leading `+` / `54` / `9` / `0`, handle a leading
    `15` (with area-code reattachment), prepend the area code to 6-8 digit
    locals, accept 9-12 remaining characters, prefix `+549`. -/
def format_phone_for_whatsapp (phone : String) (default_area_code : String) :
    Option String :=
  let t := pyStrip phone
  if t = "-" ∨ t = "" ∨ t = "Email" then none
  else
    let cleaned := t.data.filter (fun c => c.isDigit || c = '+')
    if cleaned = [] ∨ cleaned = ['+'] then none
    else
      let c6 := padArea default_area_code
        (handle15 default_area_code
          (dropLeading0 (dropLeading9 (dropLeading54 (dropLeadingPlus cleaned)))))
      if c6.length < 9 ∨ c6.length > 12 then none
      else some ("+549" ++ String.mk c6)

/-- The regular shape `\+549\d{10}` asserted by the spec: `+549` followed by
    exactly ten digits. -/
def phoneShape (s : String) : Bool :=
  match s.data with
  | '+' :: '5' :: '4' :: '9' :: ds => ds.length = 10 && ds.all Char.isDigit
  | _ => false

/-! ## Voice intake pipeline
    Source: `voice_processing.py`.  Collaborator calls (language detection,
    translation, database writes, message sends, job creation) are explicit
    inputs: either a returned value or the message of the exception they
    raised. -/

/-- Outcome of one collaborator call. -/
inductive IOOutcome (α : Type) where
  | ok (a : α)
  | exn (msg : String)
  deriving DecidableEq, Repr

/-- Model `LanguageResult` from `services/translation.py`. -/
structure LanguageResult where
  code : String
  name : String
  confidence : ℚ
  deriving DecidableEq, Repr

/-- Model `JobExtraction` — only the fields consumed by the embedded nodes. -/
structure JobExtraction where
  title : Option String
  overall_confidence : ℚ
  deriving DecidableEq, Repr

/-- State record `VoiceProcessingState` (voice_processing.py lines 30-75), restricted to
    the fields read or written by the embedded nodes.  Optional fields are
    `Option`; `workflow_permissions` is the JSON dict of booleans. -/
structure VoiceProcessingState where
  message_id : String
  customer_phone : String
  organization_id : String
  business_languages : List String
  workflow_permissions : List (String × Bool)
  status : String
  transcription : Option String
  extraction : Option JobExtraction
  confidence : Option ℚ
  job_id : Option String
  error : Option String
  detected_language : Option String
  detected_language_name : Option String
  original_transcription : Option String
  translated_transcription : Option String
  language_confidence : Option ℚ
  confirmation_sent : Bool
  confirmation_message_id : Option String
  deriving DecidableEq, Repr

/-- Defaults dict of `check_permission` (lines 102-111).  The one
    integer-valued entry, `autoApproveThresholdPercent = 5`, is truthy in
    Python and is never consulted by the embedded nodes; it is embedded as
    `true`. -/
def permissionDefaults (permission : String) : Bool :=
  if permission = "autoApproveSmallPriceAdjustments" then false
  else if permission = "autoAssignTechnicians" then false
  else true

/-- Source `check_permission` (lines 83-113):
    `permissions.get(permission, defaults.get(permission, True))`. -/
def check_permission (state : VoiceProcessingState) (permission : String) : Bool :=
  match state.workflow_permissions.lookup permission with
  | some b => b
  | none => permissionDefaults permission

/-- Source `translate_node` (lines 152-224).  `detectOutcome` embeds the
    `detect_and_translate` collaborator call (`final_text, lang_result,
    translated`), `dbOutcome` the `update_message_status` call performed when
    a translation occurred; an exception from either is caught by the node's
    `except` clause. -/
def translate_node (state : VoiceProcessingState)
    (detectOutcome : IOOutcome (String × LanguageResult × Option String))
    (dbOutcome : IOOutcome Unit) : VoiceProcessingState :=
  let onError (msg : String) : VoiceProcessingState :=
    { state with status := "extracting",
                 detected_language := some "es",
                 detected_language_name := some "Español",
                 error := some ("Translation warning: " ++ msg) }
  if check_permission state "translateMessages" = false then
    { state with status := "extracting",
                 detected_language := some "es",
                 detected_language_name := some "Español (traducción deshabilitada)" }
  else
    match state.transcription with
    | none =>
      { state with status := "extracting",
                   detected_language := some "es",
                   detected_language_name := some "Español" }
    | some transcription =>
      if transcription = "" then
        -- `if not transcription:` is also taken for the empty string
        { state with status := "extracting",
                     detected_language := some "es",
                     detected_language_name := some "Español" }
      else
        match detectOutcome with
        | .exn msg => onError msg
        | .ok (_, lang_result, translated) =>
          let update :=
            { state with status := "extracting",
                         detected_language := some lang_result.code,
                         detected_language_name := some lang_result.name,
                         language_confidence := some lang_result.confidence }
          match translated with
          | some tr =>
            match dbOutcome with
            | .exn msg => onError msg
            | .ok _ =>
              { update with original_transcription := some transcription,
                            translated_transcription := some tr,
                            transcription := some tr }
          | none => update

/-- Confidence thresholds from `config.py` (`Settings`, lines 40-41). -/
def CONFIDENCE_AUTO_CREATE_THRESHOLD : ℚ := 85/100
def CONFIDENCE_CONFIRM_THRESHOLD : ℚ := 50/100

/-- Source `route_by_confidence` (lines 267-283).  The node reads
    `state.get("confidence", 0)`; the caller passes that value. -/
def route_by_confidence (confidence : ℚ) : String :=
  if confidence ≥ CONFIDENCE_AUTO_CREATE_THRESHOLD then "auto_create"
  else if confidence ≥ CONFIDENCE_CONFIRM_THRESHOLD then "confirm"
  else "human_review"

/-- The outward calls a node can make, one constructor per distinct
    collaborator call site in `voice_processing.py`. -/
inductive Eff where
  | updateMessageStatus (status : String)
  | createJob
  | sendJobCreatedMessage
  | sendConfirmationRequest
  | sendWaitingMessage
  | sendProblemNotice
  | enqueueReview
  deriving DecidableEq, Repr

/-- Source `send_confirmation_node` (lines 286-321).  `sendOutcome` is the
    `send_message` call (returning the response message id), `dbOutcome` the
    `update_message_status` call; on any exception the node falls back to
    `human_review`. -/
def send_confirmation_node (state : VoiceProcessingState)
    (sendOutcome : IOOutcome String) (dbOutcome : IOOutcome Unit) :
    VoiceProcessingState × List Eff :=
  match state.extraction with
  | none => ({ state with status := "failed", error := some "No extraction data" }, [])
  | some _ =>
    match sendOutcome with
    | .exn msg =>
      ({ state with status := "human_review",
                    error := some ("Confirmation failed: " ++ msg) }, [])
    | .ok message_id =>
      match dbOutcome with
      | .exn msg =>
        ({ state with status := "human_review",
                      error := some ("Confirmation failed: " ++ msg) },
         [.sendConfirmationRequest])
      | .ok _ =>
        ({ state with status := "confirming", confirmation_sent := true,
                      confirmation_message_id := some message_id },
         [.sendConfirmationRequest, .updateMessageStatus "awaiting_confirmation"])

/-- Source `auto_create_job_node` (lines 324-369).  `jobOutcome` is the
    `create_job` call (returning the job id), `sendOutcome` the customer
    notification, `dbOutcome` the status update; on any exception the node
    falls back to `human_review`. -/
def auto_create_job_node (state : VoiceProcessingState)
    (jobOutcome : IOOutcome String) (sendOutcome : IOOutcome Unit)
    (dbOutcome : IOOutcome Unit) : VoiceProcessingState × List Eff :=
  match state.extraction with
  | none => ({ state with status := "failed", error := some "No extraction data" }, [])
  | some _ =>
    match jobOutcome with
    | .exn msg =>
      ({ state with status := "human_review",
                    error := some ("Job creation failed: " ++ msg) }, [])
    | .ok job_id =>
      match sendOutcome with
      | .exn msg =>
        ({ state with status := "human_review",
                      error := some ("Job creation failed: " ++ msg) },
         [.createJob])
      | .ok _ =>
        match dbOutcome with
        | .exn msg =>
          ({ state with status := "human_review",
                        error := some ("Job creation failed: " ++ msg) },
           [.createJob, .sendJobCreatedMessage])
        | .ok _ =>
          ({ state with status := "completed", job_id := some job_id, error := none },
           [.createJob, .sendJobCreatedMessage, .updateMessageStatus "job_created"])

/-- The edge map of `build_voice_workflow` (lines 457-507): the successor
    chosen after each node returns, `none` meaning `END`. -/
def nextNode (node : String) (state : VoiceProcessingState) : Option String :=
  if node = "transcribe" then
    some (if state.status ≠ "failed" then "translate" else "handle_failure")
  else if node = "translate" then some "extract"
  else if node = "extract" then
    some (if state.status ≠ "failed" then route_by_confidence ((state.confidence).getD 0)
          else "handle_failure")
  else none

/-! ## Support chat router
    Source: `support_bot.py`.  The two LLM calls (classification and answer
    generation) are collaborator inputs: the raw response content strings. -/

/-- One chat message `{"role": ..., "content": ...}`. -/
structure ChatMsg where
  role : String
  content : String
  deriving DecidableEq, Repr

/-- The closed category list of `classify_issue` (line 375). -/
def valid_categories : List String :=
  ["ventas", "caracteristicas", "facturacion", "pagos", "whatsapp",
   "cuenta", "app_movil", "otro"]

/-- Source `classify_issue` (lines 333-379): lowercase and trim the LLM response;
    coerce anything outside the closed set to `"otro"`. -/
def classify_issue (llmResponse : String) : String :=
  let category := pyLower (pyStrip llmResponse)
  if category ∈ valid_categories then category else "otro"

/-- The explicit escalation phrase list of `provide_answer` (lines 470-479). -/
def escalation_phrases : List String :=
  ["voy a escalar", "necesito escalar", "no puedo resolver",
   "no tengo esa información", "te contactará un humano",
   "equipo de soporte te contactará", "un agente te contactará",
   "no puedo ayudarte con eso específicamente"]

/-- Partial support-bot state: the fields `provide_answer` reads and its
    returned dict updates. -/
structure SupportBotState where
  messages : List ChatMsg
  issue_category : Option String
  resolved : Bool
  escalate_to_human : Bool
  last_response : Option String
  deriving DecidableEq, Repr

/-- Source `provide_answer` (lines 382-496) given the LLM's generated `answer`:
    sales/features categories never escalate, otherwise escalation is
    decided by the explicit phrase scan; `resolved = not escalate`. -/
def provide_answer (state : SupportBotState) (answer : String) : SupportBotState :=
  let is_sales_question :=
    state.issue_category = some "ventas" ∨ state.issue_category = some "caracteristicas"
  let escalate :=
    if is_sales_question then false
    else escalation_phrases.any (fun phrase => decide (phrase.data <:+: (pyLower answer).data))
  { state with
    messages := state.messages ++ [{ role := "assistant", content := answer }],
    last_response := some answer,
    escalate_to_human := escalate,
    resolved := !escalate }

/-- The fixed reassurance message of `escalate_to_support` (lines 524-528). -/
def escalation_message : String :=
  "Tu consulta fue escalada a nuestro equipo de soporte. " ++
  "Te contactaremos por email en las próximas 24 horas hábiles. " ++
  "¿Hay algo más en lo que pueda ayudarte mientras tanto?"

/-- Source `escalate_to_support` (lines 499-537): the ticket call is best-effort
    (its failure is swallowed and does not affect the returned update). -/
def escalate_to_support (state : SupportBotState) : SupportBotState :=
  { state with
    messages := state.messages ++ [{ role := "assistant", content := escalation_message }],
    last_response := some escalation_message }

/-- The result dict of `process_support_message` (lines 616-622). -/
structure SupportResult where
  response : String
  category : Option String
  escalated : Bool
  resolved : Bool
  messages : List ChatMsg
  deriving DecidableEq, Repr

/-- Source `process_support_message` (lines 584-622) running the compiled graph
    `classify -> answer -> (escalate | END)` (lines 551-573) on the initial
    state, given the two LLM response contents. -/
def process_support_message (messages : List ChatMsg)
    (llmClassification llmAnswer : String) : SupportResult :=
  let initial : SupportBotState :=
    { messages := messages, issue_category := none, resolved := false,
      escalate_to_human := false, last_response := none }
  let afterClassify := { initial with issue_category := some (classify_issue llmClassification) }
  let afterAnswer := provide_answer afterClassify llmAnswer
  let final :=
    if afterAnswer.escalate_to_human then escalate_to_support afterAnswer else afterAnswer
  { response := (final.last_response).getD "Lo siento, hubo un error. Por favor intentá de nuevo.",
    category := final.issue_category,
    escalated := final.escalate_to_human,
    resolved := final.resolved,
    messages := final.messages }

/-! ## Concrete inputs used by witnesses and counterexamples -/

/-- Catalog entry whose tokenized name equals the tokenized extracted name
    `"cable"`, used to exercise the unit-bonus clamp. -/
def bonusItem : PriceItem :=
  { id := "i1", name := "cable", description := "", price := 10,
    unit := "metro", itype := "PRODUCT" }

/-- Catalog for the rounding counterexample: one product priced `10.01`. -/
def roundingPricebook : List PriceItem :=
  [{ id := "p1", name := "cable", description := "", price := 1001/100,
     unit := "metro", itype := "PRODUCT" }]

/-- One extracted part matching `roundingPricebook` exactly. -/
def roundingPart : ExtractedPart :=
  { name := "cable", quantity := 1, unit := "metro", source_text := "src" }

/-! ## Theorems -/

/-- Jaccard similarity is nonnegative. -/
theorem calculate_match_score_nonneg (a b : String) :
    0 ≤ calculate_match_score a b := by
  simp only [calculate_match_score]
  split
  · exact le_refl 0
  · positivity

/-- Jaccard similarity is at most one. -/
theorem calculate_match_score_le_one (a b : String) :
    calculate_match_score a b ≤ 1 := by
  simp only [calculate_match_score]
  split
  · norm_num
  · rename_i h
    push_neg at h
    have hcard : ((normalizeTokens a ∩ normalizeTokens b).card : ℚ) ≤
        ((normalizeTokens a ∪ normalizeTokens b).card : ℚ) := by
      exact_mod_cast Finset.card_le_card Finset.inter_subset_union
    have hpos : (0 : ℚ) < ((normalizeTokens a ∪ normalizeTokens b).card : ℚ) := by
      have : (normalizeTokens a ∪ normalizeTokens b).Nonempty := by
        rcases Finset.nonempty_iff_ne_empty.mpr h.1 with ⟨x, hx⟩
        exact ⟨x, Finset.mem_union_left _ hx⟩
      exact_mod_cast Finset.card_pos.mpr this
    rw [div_le_one hpos]
    exact hcard

/-- Identical nonempty token sets have Jaccard similarity exactly one. -/
theorem calculate_match_score_eq_one (a b : String)
    (h : normalizeTokens a = normalizeTokens b) (hne : normalizeTokens a ≠ ∅) :
    calculate_match_score a b = 1 := by
  simp only [calculate_match_score]
  rw [if_neg (by rw [← h]; exact fun hc => hc.elim hne hne)]
  rw [← h, Finset.inter_self, Finset.union_self]
  have hpos : (0 : ℚ) < ((normalizeTokens a).card : ℚ) := by
    exact_mod_cast Finset.card_pos.mpr (Finset.nonempty_iff_ne_empty.mpr hne)
  field_simp

/-- An empty catalog-side token set gives score zero. -/
theorem calculate_match_score_empty_right (a b : String)
    (h : normalizeTokens b = ∅) : calculate_match_score a b = 0 := by
  simp only [calculate_match_score]
  rw [if_pos (Or.inr h)]

/-- C3: `route_by_confidence` is a pure function of the overall confidence:
    it returns `auto_create` for confidence ≥ 0.85, otherwise `confirm` for
    confidence ≥ 0.50, otherwise `human_review`; both boundaries are
    inclusive toward the higher-confidence branch. -/
theorem route_by_confidence_spec (c : ℚ) :
    (c ≥ 85/100 → route_by_confidence c = "auto_create") ∧
    (c < 85/100 → c ≥ 50/100 → route_by_confidence c = "confirm") ∧
    (c < 50/100 → route_by_confidence c = "human_review") := by
  refine ⟨fun h => ?_, fun h1 h2 => ?_, fun h => ?_⟩ <;>
    simp only [route_by_confidence, CONFIDENCE_AUTO_CREATE_THRESHOLD,
      CONFIDENCE_CONFIRM_THRESHOLD]
  · rw [if_pos h]
  · rw [if_neg (by linarith), if_pos h2]
  · rw [if_neg (by linarith), if_neg (by linarith)]

/-- Witness for C3 at the two boundaries and below. -/
theorem route_by_confidence_spec_witness :
    route_by_confidence (85/100) = "auto_create" ∧
    route_by_confidence (50/100) = "confirm" ∧
    route_by_confidence (49/100) = "human_review" :=
  ⟨(route_by_confidence_spec (85/100)).1 (by norm_num),
   (route_by_confidence_spec (50/100)).2.1 (by norm_num) (by norm_num),
   (route_by_confidence_spec (49/100)).2.2 (by norm_num)⟩

/-- C8: if language detection or translation (or the subsequent database
    update) raises inside `translate_node`, the node does not fail the run:
    it returns status `extracting`, leaves the transcription unchanged, and
    records a `Translation warning:` string in `error`. -/
theorem translate_node_error_nonfatal (s : VoiceProcessingState) (t msg : String)
    (dOut : IOOutcome (String × LanguageResult × Option String))
    (dbOut : IOOutcome Unit)
    (htr : s.transcription = some t) (hne : t ≠ "")
    (hperm : check_permission s "translateMessages" = true)
    (hfail : dOut = .exn msg ∨
      ∃ ft lr tr, dOut = .ok (ft, lr, some tr) ∧ dbOut = .exn msg) :
    (translate_node s dOut dbOut).status = "extracting" ∧
    (translate_node s dOut dbOut).transcription = some t ∧
    (translate_node s dOut dbOut).error = some ("Translation warning: " ++ msg) := by
  rcases hfail with h | ⟨ft, lr, tr, hok, hdb⟩
  · subst h
    simp [translate_node, hperm, htr, hne]
  · subst hok; subst hdb
    simp [translate_node, hperm, htr, hne]

/-- Witness for C8 on a concrete state whose detection call raises. -/
theorem translate_node_error_nonfatal_witness :
    (translate_node
      { message_id := "m1", customer_phone := "+5493874000000",
        organization_id := "o1", business_languages := ["es"],
        workflow_permissions := [], status := "translating",
        transcription := some "hola", extraction := none, confidence := none,
        job_id := none, error := none, detected_language := none,
        detected_language_name := none, original_transcription := none,
        translated_transcription := none, language_confidence := none,
        confirmation_sent := false, confirmation_message_id := none }
      (.exn "boom") (.ok ())).status = "extracting" :=
  (translate_node_error_nonfatal _ "hola" "boom" _ _ rfl (by decide) (by decide)
    (Or.inl rfl)).1

/-- C10: when the auto-create or confirmation node catches an exception,
    the returned state has status `human_review` and the graph edge from
    that node goes straight to `END`: the `human_review` node never runs on
    that path, so no review-queue entry is made and no waiting message is
    sent. -/
theorem node_failure_bypasses_review_queue (s : VoiceProcessingState)
    (e : JobExtraction) (hext : s.extraction = some e)
    (jobOut : IOOutcome String) (sendOutA dbOutA : IOOutcome Unit)
    (sendOutC : IOOutcome String) (dbOutC : IOOutcome Unit) (msg : String) :
    ((jobOut = .exn msg ∨ sendOutA = .exn msg ∨ dbOutA = .exn msg) →
      (auto_create_job_node s jobOut sendOutA dbOutA).1.status = "human_review" ∧
      nextNode "auto_create" (auto_create_job_node s jobOut sendOutA dbOutA).1 = none ∧
      Eff.enqueueReview ∉ (auto_create_job_node s jobOut sendOutA dbOutA).2 ∧
      Eff.sendWaitingMessage ∉ (auto_create_job_node s jobOut sendOutA dbOutA).2) ∧
    ((sendOutC = .exn msg ∨ dbOutC = .exn msg) →
      (send_confirmation_node s sendOutC dbOutC).1.status = "human_review" ∧
      nextNode "confirm" (send_confirmation_node s sendOutC dbOutC).1 = none ∧
      Eff.enqueueReview ∉ (send_confirmation_node s sendOutC dbOutC).2 ∧
      Eff.sendWaitingMessage ∉ (send_confirmation_node s sendOutC dbOutC).2) := by
  constructor
  · rintro (h | h | h) <;>
      cases jobOut <;> cases sendOutA <;> cases dbOutA <;>
      simp_all [auto_create_job_node, nextNode]
  · rintro (h | h) <;>
      cases sendOutC <;> cases dbOutC <;>
      simp_all [send_confirmation_node, nextNode]

/-- Witness for C10 on a concrete state whose `create_job` call raises. -/
theorem node_failure_bypasses_review_queue_witness :
    (auto_create_job_node
      { message_id := "m1", customer_phone := "+5493874000000",
        organization_id := "o1", business_languages := ["es"],
        workflow_permissions := [], status := "routing",
        transcription := some "hola",
        extraction := some { title := some "t", overall_confidence := 9/10 },
        confidence := some (9/10), job_id := none, error := none,
        detected_language := none, detected_language_name := none,
        original_transcription := none, translated_transcription := none,
        language_confidence := none, confirmation_sent := false,
        confirmation_message_id := none }
      (.exn "db down") (.ok ()) (.ok ())).1.status = "human_review" :=
  ((node_failure_bypasses_review_queue _
      { title := some "t", overall_confidence := 9/10 } rfl
      (.exn "db down") (.ok ()) (.ok ()) (.ok "mid") (.ok ()) "db down").1
    (Or.inl rfl)).1

/-- The review-flag law for a single part line item. -/
theorem processPart_review (pb : List PriceItem) (part : ExtractedPart) :
    (processPart pb part).needs_review = true ↔
      ((processPart pb part).unit_price = none ∨
       (processPart pb part).match_confidence < 85/100 ∨
       (processPart pb part).source_type = "custom") := by
  rcases hm : (match_to_pricebook part.name part.unit pb "part").1 with _ | m <;>
    simp only [processPart, hm]
  · simp
  · split_ifs with h1 h2
    · simp only [HIGH_CONFIDENCE_THRESHOLD] at h1
      simp [not_lt.mpr h1]
    · simp only [HIGH_CONFIDENCE_THRESHOLD, not_le] at h1
      simp [h1]
    · simp

/-- The review-flag law for a single service line item. -/
theorem processService_review (pb : List PriceItem) (service : ExtractedService) :
    (processService pb service).needs_review = true ↔
      ((processService pb service).unit_price = none ∨
       (processService pb service).match_confidence < 85/100 ∨
       (processService pb service).source_type = "custom") := by
  rcases hm : (match_to_pricebook service.description "hora" pb "service").1 with _ | m <;>
    simp only [processService, hm]
  · simp
  · split_ifs with h1 h2 <;>
      simp_all [HIGH_CONFIDENCE_THRESHOLD, MEDIUM_CONFIDENCE_THRESHOLD]

/-- C2: every line item of `extract_invoice_data` satisfies the review-flag
    law — `needs_review` holds iff the unit price is absent, or the match
    confidence is below 0.85, or the source type is `custom`; in particular
    an item with absent unit price always has `needs_review = true`. -/
theorem review_flag_law (pb : List PriceItem) (parts : List ExtractedPart)
    (services : List ExtractedService) (item : MatchedLineItem)
    (hmem : item ∈ lineItemsOf pb parts services) :
    (item.needs_review = true ↔
      (item.unit_price = none ∨ item.match_confidence < 85/100 ∨
       item.source_type = "custom")) ∧
    (item.unit_price = none → item.needs_review = true) := by
  have hiff : item.needs_review = true ↔
      (item.unit_price = none ∨ item.match_confidence < 85/100 ∨
       item.source_type = "custom") := by
    rcases List.mem_append.mp hmem with hp | hs
    · obtain ⟨part, _, rfl⟩ := List.mem_map.mp hp
      exact processPart_review pb part
    · obtain ⟨service, _, rfl⟩ := List.mem_map.mp hs
      exact processService_review pb service
  exact ⟨hiff, fun h => hiff.mpr (Or.inl h)⟩

/-- Witness for C2: an unmatched part (empty catalog) has no unit price and
    is flagged for review. -/
theorem review_flag_law_witness :
    (processPart [] roundingPart).needs_review = true :=
  (review_flag_law [] [roundingPart] [] (processPart [] roundingPart)
    (by simp [lineItemsOf])).2 (by decide)

/-- C1 (amended): invoice totals are computed with exact decimal
    arithmetic and no rounding: the subtotal is the sum of `total` over the
    line items whose total is present, `tax_amount = subtotal × 0.21`
    exactly, and `total = subtotal + tax_amount`; a line item's total is
    present exactly when its unit price is. -/
theorem invoice_totals_spec (pb : List PriceItem) (parts : List ExtractedPart)
    (services : List ExtractedService) :
    (extract_invoice_totals pb parts services).subtotal =
      ((extract_invoice_totals pb parts services).line_items.filterMap
        (fun i => i.total)).sum ∧
    (extract_invoice_totals pb parts services).tax_amount =
      (extract_invoice_totals pb parts services).subtotal * (21/100) ∧
    (extract_invoice_totals pb parts services).total =
      (extract_invoice_totals pb parts services).subtotal +
        (extract_invoice_totals pb parts services).tax_amount ∧
    ∀ item ∈ (extract_invoice_totals pb parts services).line_items,
      (item.total = none ↔ item.unit_price = none) := by
  refine ⟨rfl, rfl, rfl, ?_⟩
  intro item hmem
  rcases List.mem_append.mp hmem with hp | hs
  · obtain ⟨part, _, rfl⟩ := List.mem_map.mp hp
    rcases hm : (match_to_pricebook part.name part.unit pb "part").1 with _ | m
    · simp [processPart, hm]
    · simp only [processPart, hm]
      split_ifs <;> simp
  · obtain ⟨service, _, rfl⟩ := List.mem_map.mp hs
    rcases hm : (match_to_pricebook service.description "hora" pb "service").1 with _ | m
    · simp [processService, hm]
    · simp only [processService, hm]
      split_ifs <;> simp

/-- Witness for C1's amended totals law on a concrete one-part invoice. -/
theorem invoice_totals_spec_witness :
    (extract_invoice_totals roundingPricebook [roundingPart] []).tax_amount =
      (extract_invoice_totals roundingPricebook [roundingPart] []).subtotal *
        (21/100) :=
  (invoice_totals_spec roundingPricebook [roundingPart] []).2.1

/-- The score of the rounding-counterexample part against its catalog
    entry: an exact name and unit match clamps to 1. -/
theorem rounding_candidateScore :
    candidateScore "cable" "metro"
      { id := "p1", name := "cable", description := "", price := 1001/100,
        unit := "metro", itype := "PRODUCT" } = 1 := by
  have h1 : calculate_match_score "cable" "cable" = 1 :=
    calculate_match_score_eq_one _ _ rfl (by decide)
  have h2 : calculate_match_score "cable" "" = 0 :=
    calculate_match_score_empty_right _ _ (by decide)
  simp only [candidateScore, h1, h2]
  norm_num

/-- The matcher output for the rounding counterexample. -/
theorem rounding_match :
    match_to_pricebook "cable" "metro" roundingPricebook "part" =
      (some { id := "p1", name := "cable", price := 1001/100, unit := "metro",
              itype := "PRODUCT", score := 1 }, 1, []) := by
  have hs : scoredList "cable" "metro" roundingPricebook "part" =
      [{ id := "p1", name := "cable", price := 1001/100, unit := "metro",
         itype := "PRODUCT", score := 1 }] := by
    simp only [scoredList, candidatesOf, roundingPricebook]
    norm_num [toScored, rounding_candidateScore]
  have hss : sortedScored "cable" "metro" roundingPricebook "part" =
      [{ id := "p1", name := "cable", price := 1001/100, unit := "metro",
         itype := "PRODUCT", score := 1 }] := by
    rw [sortedScored, hs]
    show (List.mergeSort [(0, _)] scoreDescIdxAsc).map _ = _
    rw [List.mergeSort_singleton]
    rfl
  have hne : roundingPricebook ≠ [] := by simp [roundingPricebook]
  rw [match_to_pricebook, if_neg hne]
  simp [hss]

/-- C1 counterexample: with one priced line of `10.01`, the computed
    `tax_amount` is `2.1021`, which is not a two-decimal-place fixed-point
    value — no banker-style rounding to two places happens anywhere. -/
theorem invoice_rounding_counterexample :
    (extract_invoice_totals roundingPricebook [roundingPart] []).tax_amount =
      21021/10000 ∧
    ((extract_invoice_totals roundingPricebook [roundingPart] []).tax_amount *
      100).den ≠ 1 := by
  have hitem : processPart roundingPricebook roundingPart =
      { description := "cable", quantity := 1, unit := "metro",
        unit_price := some (1001/100), total := some (1001/100 * 1),
        source_type := "part", source_text := "src",
        matched_price_item_id := some "p1", matched_price_item_name := some "cable",
        match_confidence := 1, alternative_matches := [],
        needs_review := false, review_reason := none } := by
    simp only [processPart, rounding_match, roundingPart]
    norm_num [HIGH_CONFIDENCE_THRESHOLD]
  have htax : (extract_invoice_totals roundingPricebook [roundingPart] []).tax_amount =
      21021/10000 := by
    simp only [extract_invoice_totals, lineItemsOf, List.map, List.map_nil,
      List.append_nil, hitem]
    norm_num [List.filterMap_cons, List.sum_cons, List.sum_nil]
  refine ⟨htax, ?_⟩
  rw [htax]
  norm_num [Rat.den]

theorem scoreDescIdxAsc_iff (a b : Nat × ScoredItem) :
    scoreDescIdxAsc a b = true ↔ scoreDescIdxOrder a b := by
  simp [scoreDescIdxAsc, scoreDescIdxOrder]

theorem scoreDescIdxAsc_trans (a b c : Nat × ScoredItem)
    (hab : scoreDescIdxAsc a b) (hbc : scoreDescIdxAsc b c) :
    scoreDescIdxAsc a c := by
  rw [scoreDescIdxAsc_iff] at *
  rcases hab with h | ⟨he, hi⟩ <;> rcases hbc with h' | ⟨he', hi'⟩
  · exact Or.inl (lt_trans h' h)
  · exact Or.inl (he' ▸ h)
  · exact Or.inl (he ▸ h')
  · exact Or.inr ⟨he'.trans he, hi.trans hi'⟩

theorem scoreDescIdxAsc_total (a b : Nat × ScoredItem) :
    scoreDescIdxAsc a b || scoreDescIdxAsc b a := by
  rcases lt_trichotomy a.2.score b.2.score with h | h | h
  · simp [scoreDescIdxAsc_iff, scoreDescIdxOrder, h]
  · rcases Nat.le_total a.1 b.1 with hi | hi <;>
      simp [scoreDescIdxAsc_iff, scoreDescIdxOrder, h, hi]
  · simp [scoreDescIdxAsc_iff, scoreDescIdxOrder, h]

/-- C6: for every extracted name, unit, catalog and type filter, the
    matcher's output is characterized by a list `ord` that is a permutation
    of the position-tagged survivors (candidates scoring > 0.2, in catalog
    iteration order — candidates scoring ≤ 0.2 are discarded), is ordered by
    strictly descending score with ties broken by ascending catalog
    position, and from which the result is read off: the best match is its
    head (or absent when no candidate survives), the confidence is the best
    match's score (0 when absent), and the alternatives are positions 2-4. -/
theorem match_to_pricebook_spec (en eu : String) (pb : List PriceItem)
    (ty : String) :
    ∃ ord : List (Nat × ScoredItem),
      ord.Perm (scoredList en eu pb ty).enum ∧
      ord.Pairwise scoreDescIdxOrder ∧
      (∀ x ∈ ord, x.2.score > 1/5) ∧
      (match_to_pricebook en eu pb ty).1 = (ord.map (·.2)).head? ∧
      (match_to_pricebook en eu pb ty).2.1 =
        (((ord.map (·.2)).head?).map (·.score)).getD 0 ∧
      (match_to_pricebook en eu pb ty).2.2 = ((ord.map (·.2)).drop 1).take 3 := by
  refine ⟨(scoredList en eu pb ty).enum.mergeSort scoreDescIdxAsc,
    List.mergeSort_perm _ _, ?_, ?_, ?_, ?_, ?_⟩
  · exact ((scoredList en eu pb ty).enum.sorted_mergeSort
      scoreDescIdxAsc_trans scoreDescIdxAsc_total).imp
      (fun h => (scoreDescIdxAsc_iff _ _).mp h)
  · intro x hx
    have hx' : x ∈ (scoredList en eu pb ty).enum :=
      (List.mergeSort_perm _ _).mem_iff.mp hx
    have hx2 : x.2 ∈ scoredList en eu pb ty :=
      List.getElem?_mem (List.mem_enum_iff_getElem?.mp hx')
    have := List.of_mem_filter hx2
    simpa using this
  · by_cases hpb : pb = []
    · subst hpb
      simp [match_to_pricebook, scoredList, candidatesOf]
    · simp [match_to_pricebook, hpb, sortedScored]
  · by_cases hpb : pb = []
    · subst hpb
      simp [match_to_pricebook, scoredList, candidatesOf]
    · simp [match_to_pricebook, hpb, sortedScored]
  · by_cases hpb : pb = []
    · subst hpb
      simp [match_to_pricebook, scoredList, candidatesOf]
    · simp only [match_to_pricebook, if_neg hpb, sortedScored]

/-- Witness for C6 at a concrete matcher call. -/
theorem match_to_pricebook_spec_witness :
    ∃ ord : List (Nat × ScoredItem),
      ord.Perm (scoredList "cable" "metro" roundingPricebook "part").enum ∧
      ord.Pairwise scoreDescIdxOrder ∧
      (∀ x ∈ ord, x.2.score > 1/5) ∧
      (match_to_pricebook "cable" "metro" roundingPricebook "part").1 =
        (ord.map (·.2)).head? ∧
      (match_to_pricebook "cable" "metro" roundingPricebook "part").2.1 =
        (((ord.map (·.2)).head?).map (·.score)).getD 0 ∧
      (match_to_pricebook "cable" "metro" roundingPricebook "part").2.2 =
        ((ord.map (·.2)).drop 1).take 3 :=
  match_to_pricebook_spec "cable" "metro" roundingPricebook "part"

/-- C7 (amended): for a catalog entry whose tokenized name is identical to
    the (nonempty) tokenized extracted name, the base score is already 1.0,
    so after clamping the unit-match score and the unit-mismatch score are
    both exactly 1 — equal, not 0.1 apart; the +0.1 bonus is absorbed by the
    `min 1` clamp. -/
theorem unit_bonus_clamped (en u1 u2 : String) (item : PriceItem)
    (htok : normalizeTokens en = normalizeTokens item.name)
    (hne : normalizeTokens en ≠ ∅)
    (h1 : pyLower item.unit = pyLower u1)
    (h2 : pyLower item.unit ≠ pyLower u2) :
    candidateScore en u1 item = 1 ∧ candidateScore en u2 item = 1 := by
  have hname : calculate_match_score en item.name = 1 :=
    calculate_match_score_eq_one en item.name htok hne
  have hdesc0 : 0 ≤ calculate_match_score en item.description :=
    calculate_match_score_nonneg en item.description
  have hdesc1 : calculate_match_score en item.description ≤ 1 :=
    calculate_match_score_le_one en item.description
  have hmax : max (calculate_match_score en item.name)
      (calculate_match_score en item.description * (7/10)) = 1 := by
    rw [hname]
    exact max_eq_left (by linarith)
  constructor
  · simp only [candidateScore, hmax, if_pos h1]
    norm_num [min_def]
  · simp only [candidateScore, hmax, if_neg h2]
    norm_num [min_def]

/-- Witness for C7's amended clamp law at the concrete entry `bonusItem`. -/
theorem unit_bonus_clamped_witness :
    candidateScore "cable" "metro" bonusItem = 1 :=
  (unit_bonus_clamped "cable" "metro" "kg" bonusItem (by decide) (by decide)
    (by decide) (by decide)).1

/-- C7 counterexample: for the extracted name `"cable"` and the catalog
    entry `bonusItem` with identical tokenized name, the unit-match score
    equals the unit-mismatch score (both 1), so it is not strictly greater
    by 0.1. -/
theorem unit_bonus_counterexample :
    normalizeTokens "cable" = normalizeTokens bonusItem.name ∧
    normalizeTokens "cable" ≠ ∅ ∧
    pyLower bonusItem.unit = pyLower "metro" ∧
    pyLower bonusItem.unit ≠ pyLower "kg" ∧
    candidateScore "cable" "metro" bonusItem =
      candidateScore "cable" "kg" bonusItem ∧
    candidateScore "cable" "metro" bonusItem ≠
      candidateScore "cable" "kg" bonusItem + 1/10 := by
  have h1 : calculate_match_score "cable" "cable" = 1 :=
    calculate_match_score_eq_one _ _ rfl (by decide)
  have h2 : calculate_match_score "cable" "" = 0 :=
    calculate_match_score_empty_right _ _ (by decide)
  refine ⟨by decide, by decide, by decide, by decide, ?_, ?_⟩ <;>
    · simp only [candidateScore, bonusItem, h1, h2]
      rw [if_neg (by decide : ¬ pyLower "metro" = pyLower "kg")]
      norm_num [min_def, max_def]

/-- A digit character is not whitespace. -/
theorem digit_not_whitespace {c : Char} (h : c.isDigit = true) :
    c.isWhitespace = false := by
  by_contra hw
  rw [Bool.not_eq_false] at hw
  have hval : c.val ≥ 48 ∧ c.val ≤ 57 := by
    simpa [Char.isDigit] using h
  simp only [Char.isWhitespace, Bool.or_eq_true, decide_eq_true_eq] at hw
  rcases hw with ((rfl | rfl) | rfl) | rfl <;> revert hval <;> decide

/-- Function `pyStrip` leaves a string without leading or trailing whitespace (in
    fact any whitespace) unchanged. -/
theorem pyStrip_eq_self {s : String} (h : ∀ c ∈ s.data, c.isWhitespace = false) :
    pyStrip s = s := by
  have key : ∀ (l : List Char), (∀ c ∈ l, c.isWhitespace = false) →
      l.dropWhile Char.isWhitespace = l := by
    intro l hl
    cases l with
    | nil => rfl
    | cons x xs =>
      have hx : x.isWhitespace = false := hl x (List.mem_cons_self x xs)
      rw [List.dropWhile_cons, if_neg (by simp [hx])]
  unfold pyStrip
  rw [key _ h, key _ (fun c hc => h c (List.mem_reverse.mp hc)),
    List.reverse_reverse]

/-- Dropping the leading `+` of the cleaned character list leaves only
    digits, provided the raw input had `+` at most in first position. -/
theorem after_plus_digits (l : List Char) (h : '+' ∉ l.tail) :
    ∀ c ∈ dropLeadingPlus (l.filter (fun c => c.isDigit || c = '+')),
      c.isDigit = true := by
  have sub : ∀ (m : List Char), (∀ c ∈ m, c.isDigit = true) →
      ∀ c ∈ dropLeadingPlus m, c.isDigit = true := by
    intro m hm c hc
    unfold dropLeadingPlus at hc
    split at hc
    · exact hm c (List.mem_of_mem_tail hc)
    · exact hm c hc
  cases l with
  | nil => simp [dropLeadingPlus]
  | cons x xs =>
    simp only [List.tail_cons] at h
    have hxs : ∀ c ∈ xs.filter (fun c => c.isDigit || c = '+'),
        c.isDigit = true := by
      intro c hc
      rcases List.mem_filter.mp hc with ⟨hcm, hp⟩
      simp only [Bool.or_eq_true, decide_eq_true_eq] at hp
      rcases hp with hd | rfl
      · exact hd
      · exact absurd hcm h
    by_cases hpx : (x.isDigit || decide (x = '+')) = true
    · rw [show List.filter (fun c => c.isDigit || decide (c = '+')) (x :: xs) =
          x :: List.filter (fun c => c.isDigit || decide (c = '+')) xs by
            rw [List.filter_cons, if_pos hpx]]
      by_cases hx : x = '+'
      · subst hx
        intro c hc
        unfold dropLeadingPlus at hc
        rw [if_pos (show ('+' :: List.filter
            (fun c => c.isDigit || decide (c = '+')) xs).head? = some '+'
          from rfl), List.tail_cons] at hc
        exact hxs c hc
      · intro c hc
        unfold dropLeadingPlus at hc
        rw [if_neg (by simp [hx])] at hc
        rcases List.mem_cons.mp hc with rfl | hc
        · simp only [Bool.or_eq_true, decide_eq_true_eq] at hpx
          exact hpx.resolve_right hx
        · exact hxs c hc
    · rw [show List.filter (fun c => c.isDigit || decide (c = '+')) (x :: xs) =
          List.filter (fun c => c.isDigit || decide (c = '+')) xs by
            rw [List.filter_cons, if_neg hpx]]
      exact sub _ hxs

theorem dropLeading54_digits {l : List Char} (h : ∀ c ∈ l, c.isDigit = true) :
    ∀ c ∈ dropLeading54 l, c.isDigit = true := by
  unfold dropLeading54
  split
  · exact fun c hc => h c (List.mem_of_mem_drop hc)
  · exact h

theorem dropLeading9_digits {l : List Char} (h : ∀ c ∈ l, c.isDigit = true) :
    ∀ c ∈ dropLeading9 l, c.isDigit = true := by
  unfold dropLeading9
  split
  · exact fun c hc => h c (List.mem_of_mem_tail hc)
  · exact h

theorem dropLeading0_digits {l : List Char} (h : ∀ c ∈ l, c.isDigit = true) :
    ∀ c ∈ dropLeading0 l, c.isDigit = true := by
  unfold dropLeading0
  split
  · exact fun c hc => h c (List.mem_of_mem_tail hc)
  · exact h

theorem handle15_digits {ac : String} {l : List Char}
    (hac : ∀ c ∈ ac.data, c.isDigit = true) (h : ∀ c ∈ l, c.isDigit = true) :
    ∀ c ∈ handle15 ac l, c.isDigit = true := by
  unfold handle15
  split
  · split
    · intro c hc
      rcases List.mem_append.mp hc with hc | hc
      · exact hac c hc
      · exact h c (List.mem_of_mem_drop hc)
    · exact fun c hc => h c (List.mem_of_mem_drop hc)
  · exact h

theorem padArea_digits {ac : String} {l : List Char}
    (hac : ∀ c ∈ ac.data, c.isDigit = true) (h : ∀ c ∈ l, c.isDigit = true) :
    ∀ c ∈ padArea ac l, c.isDigit = true := by
  unfold padArea
  split
  · intro c hc
    rcases List.mem_append.mp hc with hc | hc
    · exact hac c hc
    · exact h c hc
  · exact h

/-- C5 (amended): when the default area code is all digits and the input
    contains `+` at most as the first non-blank character, every non-absent
    output of the phone normalizer is `+549` followed by 9 to 12 digits —
    not always exactly 10; inputs whose remainder after prefix handling has
    fewer than 9 or more than 12 characters yield an absent result. -/
theorem phone_shape_amended (phone ac s : String)
    (h_ac : ∀ c ∈ ac.data, c.isDigit = true)
    (h_plus : '+' ∉ (pyStrip phone).data.tail)
    (h : format_phone_for_whatsapp phone ac = some s) :
    ∃ ds : List Char, s.data = '+' :: '5' :: '4' :: '9' :: ds ∧
      9 ≤ ds.length ∧ ds.length ≤ 12 ∧ ∀ c ∈ ds, c.isDigit = true := by
  simp only [format_phone_for_whatsapp] at h
  split at h
  · exact absurd h (by simp)
  split at h
  · exact absurd h (by simp)
  split at h
  · exact absurd h (by simp)
  rename_i hlen
  have hs := (Option.some.inj h).symm
  subst hs
  refine ⟨padArea ac (handle15 ac (dropLeading0 (dropLeading9 (dropLeading54
      (dropLeadingPlus ((pyStrip phone).data.filter
        (fun c => c.isDigit || c = '+'))))))), ?_, ?_, ?_, ?_⟩
  · rw [String.data_append]
    rfl
  · push_neg at hlen
    exact hlen.1
  · push_neg at hlen
    exact hlen.2
  · exact padArea_digits h_ac (handle15_digits h_ac (dropLeading0_digits
      (dropLeading9_digits (dropLeading54_digits (after_plus_digits _ h_plus)))))

/-- Witness for C5's amended shape law: a 10-digit mobile input yields a
    `+549`-prefixed 10-digit canonical form. -/
theorem phone_shape_amended_witness :
    ∃ ds : List Char,
      ("+5493874475398" : String).data = '+' :: '5' :: '4' :: '9' :: ds ∧
      9 ≤ ds.length ∧ ds.length ≤ 12 ∧ ∀ c ∈ ds, c.isDigit = true :=
  phone_shape_amended "3874475398" "387" "+5493874475398"
    (by decide) (by decide) (by decide)

/-- C5 counterexample: the 9-digit input `"387425099"` is accepted and
    yields `+549387425099` — only 12 digits after the `+`, so the output
    does not match `\+549\d{10}`. -/
theorem phone_shape_counterexample :
    format_phone_for_whatsapp "387425099" "387" = some "+549387425099" ∧
    phoneShape "+549387425099" = false := by
  constructor <;> decide

/-- A canonical-form string `+549` followed by 9-12 digits that does not
    begin with `0` or `15` is a fixed point of the normalizer. -/
theorem fpw_canonical_fixed (d : List Char) (ac : String)
    (hd : ∀ c ∈ d, c.isDigit = true) (h9 : 9 ≤ d.length) (h12 : d.length ≤ 12)
    (h0 : d.head? ≠ some '0') (h15 : d.take 2 ≠ ['1', '5']) :
    format_phone_for_whatsapp ("+549" ++ String.mk d) ac =
      some ("+549" ++ String.mk d) := by
  have hdata : ("+549" ++ String.mk d).data = '+' :: '5' :: '4' :: '9' :: d := by
    rw [String.data_append]
    rfl
  have hnw : ∀ c ∈ ("+549" ++ String.mk d).data, c.isWhitespace = false := by
    rw [hdata]
    intro c hc
    rcases List.mem_cons.mp hc with rfl | hc
    · decide
    rcases List.mem_cons.mp hc with rfl | hc
    · decide
    rcases List.mem_cons.mp hc with rfl | hc
    · decide
    rcases List.mem_cons.mp hc with rfl | hc
    · decide
    · exact digit_not_whitespace (hd c hc)
  have hstrip : pyStrip ("+549" ++ String.mk d) = "+549" ++ String.mk d :=
    pyStrip_eq_self hnw
  have hfilter : ("+549" ++ String.mk d).data.filter
      (fun c => c.isDigit || c = '+') = '+' :: '5' :: '4' :: '9' :: d := by
    rw [hdata]
    rw [List.filter_eq_self]
    intro c hc
    rcases List.mem_cons.mp hc with rfl | hc
    · decide
    rcases List.mem_cons.mp hc with rfl | hc
    · decide
    rcases List.mem_cons.mp hc with rfl | hc
    · decide
    rcases List.mem_cons.mp hc with rfl | hc
    · decide
    · simp [hd c hc]
  have hlen4 : ("+549" ++ String.mk d).data.length = 4 + d.length := by
    rw [hdata]; simp; omega
  have hne1 : ¬(pyStrip ("+549" ++ String.mk d) = "-" ∨
      pyStrip ("+549" ++ String.mk d) = "" ∨
      pyStrip ("+549" ++ String.mk d) = "Email") := by
    rw [hstrip]
    rintro (he | he | he) <;>
      · have hl := congrArg (fun s : String => s.data.length) he
        simp only [hlen4] at hl
        simp at hl
        all_goals omega
  have e1 : dropLeadingPlus ('+' :: '5' :: '4' :: '9' :: d) =
      '5' :: '4' :: '9' :: d := by
    unfold dropLeadingPlus
    rw [if_pos (show ('+' :: '5' :: '4' :: '9' :: d).head? = some '+' from rfl),
      List.tail_cons]
  have e2 : dropLeading54 ('5' :: '4' :: '9' :: d) = '9' :: d := by
    unfold dropLeading54
    rw [if_pos (show List.take 2 ('5' :: '4' :: '9' :: d) = ['5', '4'] from rfl)]
    rfl
  have e3 : dropLeading9 ('9' :: d) = d := by
    unfold dropLeading9
    rw [if_pos (show ('9' :: d).head? = some '9' from rfl), List.tail_cons]
  have e4 : dropLeading0 d = d := by
    unfold dropLeading0
    rw [if_neg h0]
  have hd4 : dropLeading0 (dropLeading9 (dropLeading54 (dropLeadingPlus
      ('+' :: '5' :: '4' :: '9' :: d)))) = d := by
    rw [e1, e2, e3, e4]
  have h15' : handle15 ac d = d := by
    rw [handle15, if_neg]
    rintro ⟨ht, -⟩
    exact h15 ht
  have hpad : padArea ac d = d := by
    rw [padArea, if_neg]
    rintro ⟨hle, -⟩
    omega
  rw [format_phone_for_whatsapp]
  rw [if_neg hne1]
  rw [hstrip, hfilter]
  rw [if_neg (by rintro (he | he) <;> exact absurd he (by simp))]
  rw [hd4, h15', hpad]
  rw [if_neg (by omega)]

/-- C4 (amended): phone normalization is idempotent on every input whose
    canonical form's digit tail does not begin with `0` or `15` (with a
    digit-only area code and `+` at most leading in the input): if
    `normalize(x, ac) = c` then `normalize(c, ac) = c`.  Canonical forms
    whose tail begins with `0` or `15` are re-stripped on the second pass
    and are not fixed points. -/
theorem phone_idempotence_amended (phone ac c : String)
    (h_ac : ∀ ch ∈ ac.data, ch.isDigit = true)
    (h_plus : '+' ∉ (pyStrip phone).data.tail)
    (h : format_phone_for_whatsapp phone ac = some c)
    (h0 : (c.data.drop 4).head? ≠ some '0')
    (h15 : (c.data.drop 4).take 2 ≠ ['1', '5']) :
    format_phone_for_whatsapp c ac = some c := by
  obtain ⟨ds, hdata, h9, h12, hdig⟩ := phone_shape_amended phone ac c h_ac h_plus h
  have hdrop : c.data.drop 4 = ds := by rw [hdata]; rfl
  have hc : c = "+549" ++ String.mk ds := by
    refine String.ext (hdata.trans ?_)
    rw [String.data_append]
    rfl
  rw [hc]
  exact fpw_canonical_fixed ds ac hdig h9 h12
    (by rw [← hdrop]; exact h0) (by rw [← hdrop]; exact h15)

/-- Witness for C4's amended idempotence law. -/
theorem phone_idempotence_amended_witness :
    format_phone_for_whatsapp "+5493874475398" "387" = some "+5493874475398" :=
  phone_idempotence_amended "3874475398" "387" "+5493874475398"
    (by decide) (by decide) (by decide) (by decide) (by decide)

/-- C4 counterexample: `normalize("00123456789", "387")` yields
    `+5490123456789`, but normalizing that canonical form again strips the
    leading `0` of the tail and yields the different `+549123456789` —
    normalization is not idempotent. -/
theorem phone_idempotence_counterexample :
    format_phone_for_whatsapp "00123456789" "387" = some "+5490123456789" ∧
    format_phone_for_whatsapp "+5490123456789" "387" = some "+549123456789" ∧
    ("+549123456789" : String) ≠ "+5490123456789" := by
  refine ⟨by decide, by decide, by decide⟩

/-- C9: a support-router run classified as sales or features (`ventas` /
    `caracteristicas`) returns `escalated = false`, and every run returns
    `resolved` equal to the negation of `escalated`. -/
theorem support_router_closure (messages : List ChatMsg)
    (llmClassification llmAnswer : String) :
    (((process_support_message messages llmClassification llmAnswer).category =
        some "ventas" ∨
      (process_support_message messages llmClassification llmAnswer).category =
        some "caracteristicas") →
      (process_support_message messages llmClassification llmAnswer).escalated = false) ∧
    (process_support_message messages llmClassification llmAnswer).resolved =
      !(process_support_message messages llmClassification llmAnswer).escalated := by
  have key : ∀ a : SupportBotState,
      ((if a.escalate_to_human then escalate_to_support a else a).escalate_to_human =
        a.escalate_to_human) ∧
      ((if a.escalate_to_human then escalate_to_support a else a).resolved =
        a.resolved) ∧
      ((if a.escalate_to_human then escalate_to_support a else a).issue_category =
        a.issue_category) := by
    intro a
    by_cases h : a.escalate_to_human = true <;> simp [h, escalate_to_support]
  simp only [process_support_message, (key _).1, (key _).2.1, (key _).2.2]
  constructor
  · intro hcat
    have hc : classify_issue llmClassification = "ventas" ∨
        classify_issue llmClassification = "caracteristicas" := by
      rcases hcat with h | h <;> [left; right] <;> exact Option.some_injective _ h
    simp [provide_answer, hc]
  · simp [provide_answer]

/-- Witness for C9 on a concrete sales-classified run. -/
theorem support_router_closure_witness :
    (process_support_message [{ role := "user", content := "cuanto cuesta?" }]
      "ventas" "no puedo resolver eso").escalated = false :=
  (support_router_closure [{ role := "user", content := "cuanto cuesta?" }]
    "ventas" "no puedo resolver eso").1 (Or.inl (by decide))

end CampoTech
